import Mathlib

/-!
Verification of the hn-to-instapaper pipeline (src/main.py) against its
specification. The Python module is shallowly embedded: each Python function
becomes a Lean definition of the same name; network and SMTP effects are
modelled by oracle functions (`World`) and an event trace (`Event`).
-/

/-- A parsed Hacker News item object (a Python dict). Only the keys the
program reads (`title`, `url`, `descendants`) are modelled as fields;
`hasOtherKeys` records whether the dict carries any further keys, which is
what Python dict truthiness (`if story`) can additionally observe.
An `Option` field is `none` when the key is missing (or JSON `null`,
which `dict.get` treats the same way). -/
structure Story where
  title : Option String
  url : Option String
  descendants : Option Int
  hasOtherKeys : Bool
deriving DecidableEq

/-- Python truthiness of the story dict (`if story ...`): a dict is truthy
iff it is non-empty, i.e. it has at least one key. -/
def storyTruthy (s : Story) : Bool :=
  s.title.isSome || s.url.isSome || s.descendants.isSome || s.hasOtherKeys

/-- `has_external_url` (main.py line 51-53): `story.get("url") is not None`. -/
def has_external_url (story : Story) : Bool :=
  story.url.isSome

/-- The sort key of `get_top_commented_stories` (main.py line 60):
`s.get("descendants", 0)`. -/
def descCount (s : Story) : Int :=
  s.descendants.getD 0

/-- The comparison realised by `sorted(stories, key=..., reverse=True)`:
`a` may come before `b` iff `b`'s comment count does not exceed `a`'s.
Python's sort is stable and `reverse=True` keeps equal-key elements in
their original order, which is exactly insertion sort under this
(reflexive) relation. -/
def byDesc (a b : Story) : Prop :=
  descCount b ≤ descCount a

instance : DecidableRel byDesc :=
  fun a b => inferInstanceAs (Decidable (descCount b ≤ descCount a))

instance : IsTotal Story byDesc :=
  ⟨fun a b => Int.le_total (descCount b) (descCount a)⟩

instance : IsTrans Story byDesc :=
  ⟨fun _ _ _ hab hbc => le_trans hbc hab⟩

/-- `get_top_commented_stories` (main.py lines 56-63): stable sort by
descending comment count, then take the first `n`. -/
def get_top_commented_stories (stories : List Story) (n : Nat) : List Story :=
  (List.insertionSort byDesc stories).take n

/-- The body of an HTTP response to `GET /v0/item/{id}.json`, as seen by
`response.json()`: decoding may fail (`jerror`, raising a
`JSONDecodeError`, which is a `RequestException`), or produce JSON `null`
(Python `None`, e.g. a deleted item), or a story object. -/
inductive JsonBody
  | jerror
  | jnull
  | jobj (s : Story)
deriving DecidableEq

/-- Outcome of one `requests.get` call for an item: either the request
raised a `RequestException` (connection error, timeout, ...) or it
returned a status code and a body. -/
inductive HttpOutcome
  | exc
  | ok (status : Nat) (body : JsonBody)
deriving DecidableEq

/-- `fetch_story` (main.py lines 41-48). `raise_for_status` raises (a
`RequestException`, caught by the handler) exactly for status codes in
[400, 600); a body that fails to decode also raises a caught
`RequestException`; JSON `null` decodes to Python `None`, which is
returned as-is. All three paths yield `None`. -/
def fetch_story (o : HttpOutcome) : Option Story :=
  match o with
  | .exc => none
  | .ok status body =>
    if 400 ≤ status ∧ status < 600 then none
    else
      match body with
      | .jerror => none
      | .jnull => none
      | .jobj s => some s

/-- Outcome of the `requests.get` call for `topstories.json`: exception, or
status plus decoded body (`none` = the body failed to decode, which raises
an uncaught exception, like a bad status). -/
inductive TopOutcome
  | exc
  | ok (status : Nat) (body : Option (List Nat))

/-- `fetch_top_stories` (main.py lines 34-38): `none` models the raised
(and uncaught) exception, `some ids` the returned list truncated to `n`. -/
def fetch_top_stories (o : TopOutcome) (n : Nat) : Option (List Nat) :=
  match o with
  | .exc => none
  | .ok status body =>
    if 400 ≤ status ∧ status < 600 then none
    else body.map (fun ids => ids.take n)

/-- The story-detail loop of `main` (main.py lines 100-104): for each id,
fetch; keep the story when it is truthy (`if story`: not `None` and a
non-empty dict) and `has_external_url` holds. `net` is the network oracle
giving the HTTP outcome for a given id. -/
def collectStories (net : Nat → HttpOutcome) : List Nat → List Story
  | [] => []
  | i :: rest =>
    match fetch_story (net i) with
    | none => collectStories net rest
    | some story =>
      if storyTruthy story && has_external_url story then
        story :: collectStories net rest
      else
        collectStories net rest

/-- `STORIES_TO_FETCH` (main.py line 30). -/
def STORIES_TO_FETCH : Nat := 20

/-- `STORIES_TO_SEND` (main.py line 31). -/
def STORIES_TO_SEND : Nat := 5

/-- The three module-level configuration values (main.py lines 21-23),
each `os.environ.get(...)`: `none` when the variable is unset, `some v`
when it is set to the string `v` (possibly empty). -/
structure Config where
  icloud_email : Option String
  icloud_app_password : Option String
  instapaper_email : Option String
deriving DecidableEq

/-- Python truthiness of an `os.environ.get` result, as tested by
`if not ICLOUD_EMAIL:` etc.: `None` and the empty string are falsy. -/
def envTruthy : Option String → Bool
  | none => false
  | some s => !s.isEmpty

/-- The `missing` list built by `main` (main.py lines 81-87): the three
variable names appended in program order whenever the corresponding value
is falsy. -/
def missingVars (cfg : Config) : List String :=
  (if !envTruthy cfg.icloud_email then ["ICLOUD_EMAIL"] else []) ++
  (if !envTruthy cfg.icloud_app_password then ["ICLOUD_APP_PASSWORD"] else []) ++
  (if !envTruthy cfg.instapaper_email then ["INSTAPAPER_EMAIL"] else [])

/-- The `MIMEText` message built by `send_to_instapaper` (main.py lines
66-71): plain-text body plus the three headers it sets. The `From` and
`To` headers take whatever the module-level configuration holds. -/
structure EmailMsg where
  body : String
  subject : String
  fromAddr : Option String
  toAddr : Option String
deriving DecidableEq

/-- The SMTP interaction performed by `send_to_instapaper` (main.py lines
73-76): connect to a fixed host and port, upgrade with STARTTLS, log in
with the configured credentials, submit one message. -/
structure SmtpSession where
  host : String
  port : Nat
  starttls : Bool
  loginUser : Option String
  loginPass : Option String
  message : EmailMsg
deriving DecidableEq

/-- `send_to_instapaper` (main.py lines 66-76), as the description of the
message and SMTP session it performs. The Python function reads the
module globals `ICLOUD_EMAIL`, `ICLOUD_APP_PASSWORD`, `INSTAPAPER_EMAIL`,
which are passed here explicitly as `cfg`. -/
def send_to_instapaper (cfg : Config) (url : String) (title : String) : SmtpSession :=
  let msg : EmailMsg :=
    { body := url
      subject := title
      fromAddr := cfg.icloud_email
      toAddr := cfg.instapaper_email }
  { host := "smtp.mail.me.com"
    port := 587
    starttls := true
    loginUser := cfg.icloud_email
    loginPass := cfg.icloud_app_password
    message := msg }

/-- Outcome of one attempted send: either `send_to_instapaper` returned
normally, or it raised an exception rendered as the string `reason`
(caught by the per-story handler, main.py lines 121-125). -/
inductive SendOutcome
  | success
  | failure (reason : String)
deriving DecidableEq

/-- The line printed after a send attempt (main.py lines 123 and 125). -/
def sendReport : SendOutcome → String
  | .success => "   ✓ Sent to Instapaper\n"
  | .failure e => "   ✗ Failed to send: " ++ e ++ "\n"

/-- Observable events of one run: console lines, the two kinds of HTTP
GET, and an SMTP delivery attempt (carrying the url and title handed to
`send_to_instapaper`). -/
inductive Event
  | print (line : String)
  | httpGetTop
  | httpGetItem (id : Nat)
  | smtpAttempt (url : String) (title : String)
deriving DecidableEq

/-- Whether an event involves network activity (everything except a
console print). -/
def isNetworkEvent : Event → Bool
  | .print _ => false
  | .httpGetTop => true
  | .httpGetItem _ => true
  | .smtpAttempt _ _ => true

/-- The send loop of `main` (main.py lines 112-125), producing the events
it emits and a flag telling whether it ran to completion. `send i` is the
oracle outcome of the `i`-th attempt (`enumerate(top_stories, 1)` starts
at 1). `story["url"]` raises an uncaught `KeyError` when the key is
missing, aborting the run (flag `false`); the `try` only wraps the
`send_to_instapaper` call, whose failure is reported and then the loop
continues. -/
def sendLoop (send : Nat → SendOutcome) (i : Nat) : List Story → List Event × Bool
  | [] => ([], true)
  | story :: rest =>
    let title := story.title.getD "Untitled"
    match story.url with
    | none => ([], false)
    | some url =>
      let comments := descCount story
      let res := sendLoop send (i + 1) rest
      (Event.print (toString i ++ ". " ++ title) ::
       Event.print ("   " ++ url) ::
       Event.print ("   (" ++ toString comments ++ " comments)") ::
       Event.smtpAttempt url title ::
       Event.print (sendReport (send i)) ::
       res.1, res.2)

/-- The url/title pairs of the SMTP attempts occurring in a trace, in
order. -/
def attemptsOf (evs : List Event) : List (String × String) :=
  evs.filterMap fun e =>
    match e with
    | Event.smtpAttempt u t => some (u, t)
    | _ => none

/-- The external world as `main` observes it: the outcome of the
top-stories request, of each per-item request, and of each numbered send
attempt. -/
structure World where
  top : TopOutcome
  item : Nat → HttpOutcome
  send : Nat → SendOutcome

/-- `main` (main.py lines 79-127) as the event trace of one run. An
uncaught exception truncates the trace (the `fetch_top_stories` failure
and the `KeyError` case of the send loop); the missing-variable branch
prints its report and returns without touching the network. -/
def runMain (cfg : Config) (w : World) : List Event :=
  let missing := missingVars cfg
  if !missing.isEmpty then
    Event.print "Missing required environment variables:" ::
      (missing.map (fun v => Event.print ("  - " ++ v)) ++
       [Event.print "\nSee script header for configuration instructions."])
  else
    Event.print ("Fetching top " ++ toString STORIES_TO_FETCH ++ " stories from Hacker News...") ::
    Event.httpGetTop ::
      match fetch_top_stories w.top STORIES_TO_FETCH with
      | none => []
      | some story_ids =>
        Event.print "Fetching story details..." ::
          (story_ids.map Event.httpGetItem ++
            (let stories := collectStories w.item story_ids
             Event.print ("Found " ++ toString stories.length ++ " stories with external URLs.") ::
              (let top_stories := get_top_commented_stories stories STORIES_TO_SEND
               Event.print ("\nSending top " ++ toString top_stories.length ++
                   " most-discussed articles to Instapaper:\n") ::
                (let res := sendLoop w.send 1 top_stories
                 res.1 ++ (if res.2 then [Event.print "Done!"] else [])))))

/-! ### Concrete fixtures used by example scenarios and witnesses -/

/-- Scenario story 1: external url, 10 comments. -/
def story1 : Story :=
  { title := some "Story One", url := some "https://one.example/a",
    descendants := some 10, hasOtherKeys := true }

/-- Scenario story 2: a self-post (no url), 50 comments. -/
def story2 : Story :=
  { title := some "Story Two", url := none,
    descendants := some 50, hasOtherKeys := true }

/-- Scenario story 3: external url, 30 comments. -/
def story3 : Story :=
  { title := some "Story Three", url := some "https://three.example/c",
    descendants := some 30, hasOtherKeys := true }

/-- Scenario story 4: external url, 5 comments. -/
def story4 : Story :=
  { title := some "Story Four", url := some "https://four.example/d",
    descendants := some 5, hasOtherKeys := true }

/-- The item oracle of the spec's example scenario: ids 1-4 resolve as
above, id 5 fails with a request exception. -/
def scenarioNet : Nat → HttpOutcome
  | 1 => .ok 200 (.jobj story1)
  | 2 => .ok 200 (.jobj story2)
  | 3 => .ok 200 (.jobj story3)
  | 4 => .ok 200 (.jobj story4)
  | _ => .exc

/-- A story whose `url` key is present but holds the empty string. -/
def emptyUrlStory : Story :=
  { title := some "Empty Url", url := some "",
    descendants := some 7, hasOtherKeys := true }

/-- An item oracle serving `emptyUrlStory` for id 1. -/
def emptyUrlNet : Nat → HttpOutcome
  | 1 => .ok 200 (.jobj emptyUrlStory)
  | _ => .exc

/-- An item oracle where id 1 resolves to a 200 response with JSON body
`null` (e.g. a deleted item). -/
def nullNet : Nat → HttpOutcome
  | 1 => .ok 200 .jnull
  | 3 => .ok 200 (.jobj story3)
  | _ => .exc

/-- A configuration with all three variables unset. -/
def cfg0 : Config := { icloud_email := none, icloud_app_password := none, instapaper_email := none }

/-- A configuration where the sender address is set to the empty string
and the other two values are non-empty. -/
def cfgEmpty : Config :=
  { icloud_email := some "", icloud_app_password := some "pw",
    instapaper_email := some "reader@instapaper.example" }

/-- An arbitrary concrete world for witnesses. -/
def w0 : World :=
  { top := TopOutcome.exc, item := fun _ => HttpOutcome.exc,
    send := fun _ => SendOutcome.failure "connection refused" }

/-- A send oracle whose first attempt fails. -/
def failingSend : Nat → SendOutcome
  | 1 => .failure "relay rejected"
  | _ => .success

/-! ### Helper lemmas -/

/-- Inserting `a` with `orderedInsert byDesc` only ever steps over elements
with strictly larger comment count, so the sublist of any fixed comment
count `k` is preserved (with `a` in front when `a` has count `k`). -/
lemma filter_key_orderedInsert (k : Int) (a : Story) :
    ∀ l : List Story,
      (List.orderedInsert byDesc a l).filter (fun s => descCount s == k) =
        if descCount a == k then
          a :: l.filter (fun s => descCount s == k)
        else
          l.filter (fun s => descCount s == k)
  | [] => by
    cases hk : descCount a == k <;> simp [List.orderedInsert, List.filter, hk]
  | b :: t => by
    rw [List.orderedInsert]
    by_cases hab : byDesc a b
    · rw [if_pos hab]
      cases hk : descCount a == k <;> cases hbk : descCount b == k <;>
        simp [List.filter, hk, hbk]
    · rw [if_neg hab]
      have hb : descCount a < descCount b := lt_of_not_le hab
      cases hk : descCount a == k
      · cases hbk : descCount b == k <;>
          simp [List.filter, hk, hbk, filter_key_orderedInsert k a t]
      · have hak : descCount a = k := by
          exact beq_iff_eq.mp hk
        have hbk : (descCount b == k) = false := by
          apply beq_eq_false_iff_ne.mpr
          intro hcontra
          rw [hcontra, ← hak] at hb
          exact lt_irrefl _ hb
        simp [List.filter, hk, hbk, filter_key_orderedInsert k a t]

/-- Stability of the embedded sort: the subsequence of stories with any
fixed comment count is unchanged by `insertionSort byDesc`. -/
lemma filter_key_insertionSort (k : Int) :
    ∀ l : List Story,
      (List.insertionSort byDesc l).filter (fun s => descCount s == k) =
        l.filter (fun s => descCount s == k)
  | [] => rfl
  | a :: t => by
    rw [List.insertionSort, filter_key_orderedInsert k a]
    cases hk : descCount a == k <;>
      simp [List.filter, hk, filter_key_insertionSort k t]

/-- Splitting the story-detail loop over an appended id list. -/
lemma collectStories_append (net : Nat → HttpOutcome) :
    ∀ l1 l2 : List Nat,
      collectStories net (l1 ++ l2) = collectStories net l1 ++ collectStories net l2
  | [], l2 => rfl
  | i :: t, l2 => by
    rw [List.cons_append, collectStories, collectStories]
    cases fetch_story (net i) with
    | none => exact collectStories_append net t l2
    | some s =>
      by_cases hg : (storyTruthy s && has_external_url s) = true
      · simp only [hg, if_true, collectStories_append net t l2, List.cons_append]
      · simp only [hg, if_false, Bool.false_eq_true, collectStories_append net t l2]

/-- Every story kept by the detail loop passed `has_external_url`, hence
its `url` key is present. -/
lemma collectStories_url_isSome (net : Nat → HttpOutcome) :
    ∀ (ids : List Nat), ∀ s ∈ collectStories net ids, s.url.isSome = true
  | [], s, hs => by simp [collectStories] at hs
  | i :: t, s, hs => by
    rw [collectStories] at hs
    cases hfetch : fetch_story (net i) with
    | none =>
      simp only [hfetch] at hs
      exact collectStories_url_isSome net t s hs
    | some st =>
      simp only [hfetch] at hs
      by_cases hg : (storyTruthy st && has_external_url st) = true
      · rw [if_pos hg] at hs
        rcases List.mem_cons.mp hs with h | h
        · subst h
          exact (Bool.and_eq_true _ _).mp hg |>.2
        · exact collectStories_url_isSome net t s h
      · rw [if_neg hg] at hs
        exact collectStories_url_isSome net t s hs

/-- If some configuration value is falsy, the `missing` list is
non-empty. -/
lemma missingVars_isEmpty_false (cfg : Config)
    (h : envTruthy cfg.icloud_email = false ∨ envTruthy cfg.icloud_app_password = false ∨
      envTruthy cfg.instapaper_email = false) :
    (missingVars cfg).isEmpty = false := by
  cases h1 : envTruthy cfg.icloud_email <;>
    cases h2 : envTruthy cfg.icloud_app_password <;>
      cases h3 : envTruthy cfg.instapaper_email <;>
        simp_all [missingVars]

/-- With a non-empty `missing` list, the run is exactly the three-part
report: header, one line per missing name, footer. -/
lemma runMain_missing (cfg : Config) (w : World)
    (h : (missingVars cfg).isEmpty = false) :
    runMain cfg w =
      Event.print "Missing required environment variables:" ::
        ((missingVars cfg).map (fun v => Event.print ("  - " ++ v)) ++
         [Event.print "\nSee script header for configuration instructions."]) := by
  simp only [runMain, h, Bool.not_false, if_true]

/-- The missing-variable report contains no network event. -/
lemma runMain_missing_noNetwork (cfg : Config) (w : World)
    (h : (missingVars cfg).isEmpty = false) :
    ∀ e ∈ runMain cfg w, isNetworkEvent e = false := by
  rw [runMain_missing cfg w h]
  intro e he
  rcases List.mem_cons.mp he with h1 | h1
  · subst h1; rfl
  · rcases List.mem_append.mp h1 with h2 | h2
    · rcases List.mem_map.mp h2 with ⟨v, _, hv⟩
      rw [← hv]; rfl
    · rcases List.mem_singleton.mp h2 with rfl; rfl

/-- Membership in the `missing` list characterised: exactly the names of
the falsy configuration values. -/
lemma mem_missingVars (cfg : Config) (v : String) :
    v ∈ missingVars cfg ↔
      (v = "ICLOUD_EMAIL" ∧ envTruthy cfg.icloud_email = false) ∨
      (v = "ICLOUD_APP_PASSWORD" ∧ envTruthy cfg.icloud_app_password = false) ∨
      (v = "INSTAPAPER_EMAIL" ∧ envTruthy cfg.instapaper_email = false) := by
  cases h1 : envTruthy cfg.icloud_email <;>
    cases h2 : envTruthy cfg.icloud_app_password <;>
      cases h3 : envTruthy cfg.instapaper_email <;>
        simp [missingVars, h1, h2, h3]

/-! ### Claim theorems -/

/-- C1, counterexample: the filter step does not guarantee a non-empty
URL. A story whose `url` key holds the empty string passes
`has_external_url` (which only tests `is not None`) and reaches the
output of the detail loop. -/
theorem claim_C1_counterexample :
    ¬ (∀ s ∈ collectStories emptyUrlNet [1], ∃ u, s.url = some u ∧ u ≠ "") := by
  intro h
  obtain ⟨u, hu, hne⟩ := h emptyUrlStory (by decide)
  have h0 : emptyUrlStory.url = some "" := rfl
  rw [h0] at hu
  exact hne (Option.some.inj hu).symm

/-- C1, amended: every story in the filter step's output has a `url` key
that is present (not `None`); stories without a present `url` never reach
the ranking stage. (The code does not additionally require the URL string
to be non-empty.) -/
theorem claim_C1_filter_url_present (net : Nat → HttpOutcome) (ids : List Nat) :
    ∀ s ∈ collectStories net ids, s.url.isSome = true :=
  collectStories_url_isSome net ids

/-- C1 witness: the amended claim applied to the empty-URL scenario. -/
theorem claim_C1_filter_url_present_witness :
    emptyUrlStory.url.isSome = true :=
  claim_C1_filter_url_present emptyUrlNet [1] emptyUrlStory (by decide)

/-- C2: the output of `get_top_commented_stories` is sorted by descending
comment count (`descendants`, defaulting to 0), and the sort is stable:
for each comment count `k`, the output's subsequence of count-`k` stories
is a prefix of the input's subsequence of count-`k` stories, so any two
equal-count stories keep their relative input order. -/
theorem claim_C2_sorted_stable (stories : List Story) (n : Nat) :
    List.Sorted byDesc (get_top_commented_stories stories n) ∧
    ∀ k : Int,
      (get_top_commented_stories stories n).filter (fun s => descCount s == k) <+:
        stories.filter (fun s => descCount s == k) := by
  constructor
  · exact (List.sorted_insertionSort byDesc stories).sublist
      (List.take_sublist n (List.insertionSort byDesc stories))
  · intro k
    show ((List.insertionSort byDesc stories).take n).filter (fun s => descCount s == k) <+:
      stories.filter (fun s => descCount s == k)
    rw [← filter_key_insertionSort k stories]
    exact ⟨((List.insertionSort byDesc stories).drop n).filter (fun s => descCount s == k),
      by rw [← List.filter_append, List.take_append_drop]⟩

/-- C3: the ranked output length is `min` of the qualifying-story count
and the bound `n`; fewer qualifying stories than `n` just yields a
shorter list. -/
theorem claim_C3_output_length (stories : List Story) (n : Nat) :
    (get_top_commented_stories stories n).length = min stories.length n := by
  simp only [get_top_commented_stories, List.length_take, List.length_insertionSort]
  exact Nat.min_comm n stories.length

/-- C7: the spec's example scenario. Fetch bound 5 keeps ids
[1,2,3,4,5]; the detail loop keeps stories 1, 3, 4 (story 2 has no URL,
story 5's fetch fails); ranking with send bound 2 selects
[story 3, story 1] in that order. -/
theorem claim_C7_example_scenario :
    fetch_top_stories (TopOutcome.ok 200 (some [1, 2, 3, 4, 5])) 5 = some [1, 2, 3, 4, 5] ∧
    collectStories scenarioNet [1, 2, 3, 4, 5] = [story1, story3, story4] ∧
    get_top_commented_stories (collectStories scenarioNet [1, 2, 3, 4, 5]) 2 =
      [story3, story1] := by
  refine ⟨?_, ?_, ?_⟩ <;> decide

/-- C8: the notifier builds a plain-text message whose subject is the
story title, whose body is exactly the article URL, whose `From` is the
configured sender and whose `To` is the single configured recipient, and
submits it over one STARTTLS-upgraded, authenticated session to
`smtp.mail.me.com` port 587. -/
theorem claim_C8_notifier_message (cfg : Config) (url title : String) :
    (send_to_instapaper cfg url title).message.subject = title ∧
    (send_to_instapaper cfg url title).message.body = url ∧
    (send_to_instapaper cfg url title).message.fromAddr = cfg.icloud_email ∧
    (send_to_instapaper cfg url title).message.toAddr = cfg.instapaper_email ∧
    (send_to_instapaper cfg url title).host = "smtp.mail.me.com" ∧
    (send_to_instapaper cfg url title).port = 587 ∧
    (send_to_instapaper cfg url title).starttls = true ∧
    (send_to_instapaper cfg url title).loginUser = cfg.icloud_email ∧
    (send_to_instapaper cfg url title).loginPass = cfg.icloud_app_password :=
  ⟨rfl, rfl, rfl, rfl, rfl, rfl, rfl, rfl, rfl⟩

/-- C4: when some configuration value is absent (falsy: unset, or empty
per the truthiness test, see C9), the run is exactly the printed report
and nothing else — in particular it contains no network event — and the
printed name list contains exactly and only the names of the absent
values. -/
theorem claim_C4_missing_config (cfg : Config) (w : World)
    (h : envTruthy cfg.icloud_email = false ∨ envTruthy cfg.icloud_app_password = false ∨
      envTruthy cfg.instapaper_email = false) :
    runMain cfg w =
      Event.print "Missing required environment variables:" ::
        ((missingVars cfg).map (fun v => Event.print ("  - " ++ v)) ++
         [Event.print "\nSee script header for configuration instructions."]) ∧
    (∀ e ∈ runMain cfg w, isNetworkEvent e = false) ∧
    (∀ v : String, v ∈ missingVars cfg ↔
      (v = "ICLOUD_EMAIL" ∧ envTruthy cfg.icloud_email = false) ∨
      (v = "ICLOUD_APP_PASSWORD" ∧ envTruthy cfg.icloud_app_password = false) ∨
      (v = "INSTAPAPER_EMAIL" ∧ envTruthy cfg.instapaper_email = false)) := by
  have hne := missingVars_isEmpty_false cfg h
  exact ⟨runMain_missing cfg w hne, runMain_missing_noNetwork cfg w hne, mem_missingVars cfg⟩

/-- C4 witness: all three values unset. -/
theorem claim_C4_missing_config_witness :
    (envTruthy cfg0.icloud_email = false ∨ envTruthy cfg0.icloud_app_password = false ∨
      envTruthy cfg0.instapaper_email = false) ∧
    (runMain cfg0 w0 =
      Event.print "Missing required environment variables:" ::
        ((missingVars cfg0).map (fun v => Event.print ("  - " ++ v)) ++
         [Event.print "\nSee script header for configuration instructions."]) ∧
     (∀ e ∈ runMain cfg0 w0, isNetworkEvent e = false) ∧
     (∀ v : String, v ∈ missingVars cfg0 ↔
       (v = "ICLOUD_EMAIL" ∧ envTruthy cfg0.icloud_email = false) ∨
       (v = "ICLOUD_APP_PASSWORD" ∧ envTruthy cfg0.icloud_app_password = false) ∨
       (v = "INSTAPAPER_EMAIL" ∧ envTruthy cfg0.instapaper_email = false))) :=
  ⟨Or.inl rfl, claim_C4_missing_config cfg0 w0 (Or.inl rfl)⟩

/-- C5: the story-detail fetcher returns `None` rather than raising, on a
request exception (which covers timeouts) and on every error status in
[400, 600); and a fetch failure for one id in a batch leaves the
processing of the ids around it unchanged. -/
theorem claim_C5_fetch_failure_isolated :
    fetch_story HttpOutcome.exc = none ∧
    (∀ (status : Nat) (body : JsonBody), 400 ≤ status → status < 600 →
      fetch_story (HttpOutcome.ok status body) = none) ∧
    (∀ (net : Nat → HttpOutcome) (l1 : List Nat) (j : Nat) (l2 : List Nat),
      fetch_story (net j) = none →
      collectStories net (l1 ++ j :: l2) =
        collectStories net l1 ++ collectStories net l2) := by
  refine ⟨rfl, ?_, ?_⟩
  · intro status body h1 h2
    simp [fetch_story, h1, h2]
  · intro net l1 j l2 hj
    rw [collectStories_append net l1 (j :: l2)]
    congr 1
    rw [collectStories]
    simp only [hj]

/-- C5 witness: in the example scenario id 5 fails, and the batch
[1, 5, 3] behaves as [1] and [3] processed around it; a 404 also maps to
`None`. -/
theorem claim_C5_fetch_failure_isolated_witness :
    fetch_story HttpOutcome.exc = none ∧
    fetch_story (HttpOutcome.ok 404 JsonBody.jnull) = none ∧
    collectStories scenarioNet ([1] ++ 5 :: [3]) =
      collectStories scenarioNet [1] ++ collectStories scenarioNet [3] :=
  ⟨claim_C5_fetch_failure_isolated.1,
   claim_C5_fetch_failure_isolated.2.1 404 JsonBody.jnull (by decide) (by decide),
   claim_C5_fetch_failure_isolated.2.2 scenarioNet [1] 5 [3] rfl⟩

/-- The detail loop only looks at the network through `fetch_story`, so
oracles with equal `fetch_story` results process identically. -/
lemma collectStories_congr (net net' : Nat → HttpOutcome)
    (h : ∀ i, fetch_story (net i) = fetch_story (net' i)) :
    ∀ ids : List Nat, collectStories net ids = collectStories net' ids
  | [] => rfl
  | i :: t => by
    rw [collectStories, collectStories, ← h i]
    cases fetch_story (net i) with
    | none => exact collectStories_congr net net' h t
    | some s =>
      dsimp only
      by_cases hg : (storyTruthy s && has_external_url s) = true
      · rw [if_pos hg, if_pos hg, collectStories_congr net net' h t]
      · rw [if_neg hg, if_neg hg, collectStories_congr net net' h t]

/-- C10: a successful (2xx) response whose JSON body is `null` makes
`fetch_story` return `None`, and the pipeline treats that id exactly as a
failed fetch: replacing the outcome by a request exception changes
nothing. In the embedding `has_external_url` takes a `Story`, and the
guard's `match` only ever applies it to a present story, mirroring the
short-circuit of `if story and has_external_url(story)`. -/
theorem claim_C10_null_json_skipped (status : Nat) (h2 : 200 ≤ status) (h3 : status < 300) :
    fetch_story (HttpOutcome.ok status JsonBody.jnull) = none ∧
    ∀ (net : Nat → HttpOutcome) (j : Nat) (ids : List Nat),
      net j = HttpOutcome.ok status JsonBody.jnull →
      collectStories net ids =
        collectStories (fun i => if i == j then HttpOutcome.exc else net i) ids := by
  have hnone : fetch_story (HttpOutcome.ok status JsonBody.jnull) = none := by
    have hns : ¬ (400 ≤ status ∧ status < 600) := by omega
    simp [fetch_story, hns]
  refine ⟨hnone, ?_⟩
  intro net j ids hj
  apply collectStories_congr
  intro i
  by_cases hij : i = j
  · simp [hij, hj, fetch_story]
  · simp [hij]

/-- C10 witness: the null-body id 1 is skipped exactly like a failing
fetch in the batch [1, 3]. -/
theorem claim_C10_null_json_skipped_witness :
    fetch_story (HttpOutcome.ok 200 JsonBody.jnull) = none ∧
    collectStories nullNet [1, 3] =
      collectStories (fun i => if i == 1 then HttpOutcome.exc else nullNet i) [1, 3] :=
  ⟨(claim_C10_null_json_skipped 200 (by decide) (by decide)).1,
   (claim_C10_null_json_skipped 200 (by decide) (by decide)).2 nullNet 1 [1, 3] rfl⟩

/-- A console line contributes no SMTP attempt. -/
lemma attemptsOf_print (s : String) (l : List Event) :
    attemptsOf (Event.print s :: l) = attemptsOf l := rfl

/-- An SMTP attempt event contributes its url/title pair. -/
lemma attemptsOf_smtp (u t : String) (l : List Event) :
    attemptsOf (Event.smtpAttempt u t :: l) = (u, t) :: attemptsOf l := rfl

/-- One unfolding step of the send loop when the story's url is present. -/
lemma sendLoop_cons (send : Nat → SendOutcome) (i : Nat) (s : Story) (rest : List Story)
    (u : String) (hu : s.url = some u) :
    sendLoop send i (s :: rest) =
      (Event.print (toString i ++ ". " ++ s.title.getD "Untitled") ::
       Event.print ("   " ++ u) ::
       Event.print ("   (" ++ toString (descCount s) ++ " comments)") ::
       Event.smtpAttempt u (s.title.getD "Untitled") ::
       Event.print (sendReport (send i)) ::
       (sendLoop send (i + 1) rest).1, (sendLoop send (i + 1) rest).2) := by
  simp only [sendLoop, hu]

/-- C6: given selected stories (all carrying a url, as the filter
guarantees), the send loop attempts every story in order no matter what
each send attempt's outcome is — one SMTP attempt per story — it runs to
completion, and for each position the per-story result line (success, or
failure with its reason) is printed. -/
theorem claim_C6_send_failure_isolated (send : Nat → SendOutcome) (i : Nat)
    (stories : List Story) (h : ∀ s ∈ stories, s.url.isSome = true) :
    attemptsOf (sendLoop send i stories).1 =
      stories.map (fun s => (s.url.getD "", s.title.getD "Untitled")) ∧
    (sendLoop send i stories).2 = true ∧
    ∀ k, k < stories.length →
      Event.print (sendReport (send (i + k))) ∈ (sendLoop send i stories).1 := by
  induction stories generalizing i with
  | nil =>
    exact ⟨rfl, rfl, fun k hk => absurd hk (Nat.not_lt_zero k)⟩
  | cons s rest ih =>
    have hs : s.url.isSome = true := h s (List.mem_cons_self s rest)
    obtain ⟨u, hu⟩ := Option.isSome_iff_exists.mp hs
    have hrest : ∀ x ∈ rest, x.url.isSome = true := fun x hx => h x (List.mem_cons_of_mem s hx)
    obtain ⟨ih1, ih2, ih3⟩ := ih (i + 1) hrest
    rw [sendLoop_cons send i s rest u hu]
    refine ⟨?_, ih2, ?_⟩
    · rw [attemptsOf_print, attemptsOf_print, attemptsOf_print, attemptsOf_smtp,
        attemptsOf_print, ih1]
      simp [hu]
    · intro k hk
      cases k with
      | zero =>
        simp only [Nat.add_zero]
        exact List.mem_cons_of_mem _ (List.mem_cons_of_mem _ (List.mem_cons_of_mem _
          (List.mem_cons_of_mem _ (List.mem_cons_self _ _))))
      | succ k =>
        have hk2 : k < rest.length := by
          simpa using hk
        have harith : i + (k + 1) = (i + 1) + k := by omega
        rw [harith]
        exact List.mem_cons_of_mem _ (List.mem_cons_of_mem _ (List.mem_cons_of_mem _
          (List.mem_cons_of_mem _ (List.mem_cons_of_mem _ (ih3 k hk2)))))

/-- C6 witness: with the first of two sends failing, both stories are
still attempted in order and both result lines appear. -/
theorem claim_C6_send_failure_isolated_witness :
    attemptsOf (sendLoop failingSend 1 [story3, story1]).1 =
      [story3, story1].map (fun s => (s.url.getD "", s.title.getD "Untitled")) ∧
    (sendLoop failingSend 1 [story3, story1]).2 = true ∧
    ∀ k, k < ([story3, story1] : List Story).length →
      Event.print (sendReport (failingSend (1 + k))) ∈
        (sendLoop failingSend 1 [story3, story1]).1 :=
  claim_C6_send_failure_isolated failingSend 1 [story3, story1] (by decide)

/-- The empty string is falsy for the configuration check. -/
lemma envTruthy_some_empty : envTruthy (some "") = false := by decide

/-- `main` reads the configuration only through the `missing` list. -/
lemma runMain_congr (cfg cfg' : Config) (w : World)
    (h : missingVars cfg = missingVars cfg') :
    runMain cfg w = runMain cfg' w := by
  simp only [runMain, h]

/-- C9: a configuration value set to the empty string is treated exactly
like an unset one: the run is identical in the two cases, the variable is
reported missing, and no network activity occurs. -/
theorem claim_C9_empty_string_is_absent (cfg : Config) (w : World) :
    runMain { cfg with icloud_email := some "" } w =
      runMain { cfg with icloud_email := none } w ∧
    runMain { cfg with icloud_app_password := some "" } w =
      runMain { cfg with icloud_app_password := none } w ∧
    runMain { cfg with instapaper_email := some "" } w =
      runMain { cfg with instapaper_email := none } w ∧
    (cfg.icloud_email = some "" →
      "ICLOUD_EMAIL" ∈ missingVars cfg ∧
      ∀ e ∈ runMain cfg w, isNetworkEvent e = false) ∧
    (cfg.icloud_app_password = some "" →
      "ICLOUD_APP_PASSWORD" ∈ missingVars cfg ∧
      ∀ e ∈ runMain cfg w, isNetworkEvent e = false) ∧
    (cfg.instapaper_email = some "" →
      "INSTAPAPER_EMAIL" ∈ missingVars cfg ∧
      ∀ e ∈ runMain cfg w, isNetworkEvent e = false) := by
  have he : envTruthy (some "") = false := envTruthy_some_empty
  have hn : envTruthy (none : Option String) = false := rfl
  refine ⟨?_, ?_, ?_, ?_, ?_, ?_⟩
  · exact runMain_congr _ _ w (by simp [missingVars, he, hn])
  · exact runMain_congr _ _ w (by simp [missingVars, he, hn])
  · exact runMain_congr _ _ w (by simp [missingVars, he, hn])
  · intro himp
    have hf : envTruthy cfg.icloud_email = false := by rw [himp]; exact he
    exact ⟨(mem_missingVars cfg _).mpr (Or.inl ⟨rfl, hf⟩),
      runMain_missing_noNetwork cfg w (missingVars_isEmpty_false cfg (Or.inl hf))⟩
  · intro himp
    have hf : envTruthy cfg.icloud_app_password = false := by rw [himp]; exact he
    exact ⟨(mem_missingVars cfg _).mpr (Or.inr (Or.inl ⟨rfl, hf⟩)),
      runMain_missing_noNetwork cfg w (missingVars_isEmpty_false cfg (Or.inr (Or.inl hf)))⟩
  · intro himp
    have hf : envTruthy cfg.instapaper_email = false := by rw [himp]; exact he
    exact ⟨(mem_missingVars cfg _).mpr (Or.inr (Or.inr ⟨rfl, hf⟩)),
      runMain_missing_noNetwork cfg w (missingVars_isEmpty_false cfg (Or.inr (Or.inr hf)))⟩

/-- C9 witness: an empty `ICLOUD_EMAIL` is reported missing and the run
stays off the network. -/
theorem claim_C9_empty_string_is_absent_witness :
    "ICLOUD_EMAIL" ∈ missingVars cfgEmpty ∧
    ∀ e ∈ runMain cfgEmpty w0, isNetworkEvent e = false :=
  (claim_C9_empty_string_is_absent cfgEmpty w0).2.2.2.1 rfl
